import Mathlib

/-!
Verification of the chronicals/sdk host runtime (`src/classes/ChronicalsClient.ts`).

The development shallowly embeds the state manipulated by `ChronicalsClient`:
the per-kind pending maps, the io-response handler map, the transaction and
page lifecycle handlers, the resend engines, the page send coalescing state
machine, the outer RPC retry loop, log formatting, and the constructor
configuration defaults. JavaScript `Map` objects are modelled as association
lists with last-write-wins `set`, and the asynchronous control flow is
modelled by explicit event sequences whose settle points mirror the `await`
points of the source.
-/

namespace Chronicals

/-- First value bound to a key in an association list. -/
def findKey {β : Type} : List (String × β) → String → Option β
  | [], _ => none
  | p :: t, k => if p.1 = k then some p.2 else findKey t k

/-- Key membership in an association list. -/
def containsKey {β : Type} : List (String × β) → String → Bool
  | [], _ => false
  | p :: t, k => if p.1 = k then true else containsKey t k

/-- Removal of every binding of a key. -/
def eraseKey {β : Type} : List (String × β) → String → List (String × β)
  | [], _ => []
  | p :: t, k => if p.1 = k then eraseKey t k else p :: eraseKey t k

/-- In-place replacement of the bindings of a key. -/
def replaceKey {β : Type} : List (String × β) → String → β → List (String × β)
  | [], _, _ => []
  | p :: t, k, v => if p.1 = k then (k, v) :: replaceKey t k v else p :: replaceKey t k v

/-- Association-list model of a JavaScript `Map` keyed by strings. -/
structure SMap (β : Type) where
  entries : List (String × β)
deriving DecidableEq

/-- Lookup, mirroring `Map.prototype.get`. -/
def SMap.get? {β : Type} (m : SMap β) (k : String) : Option β :=
  findKey m.entries k

/-- Membership, mirroring `Map.prototype.has`. -/
def SMap.contains {β : Type} (m : SMap β) (k : String) : Bool :=
  containsKey m.entries k

/-- Insertion, mirroring `Map.prototype.set`: replaces in place when the key
is present, appends otherwise. -/
def SMap.set {β : Type} (m : SMap β) (k : String) (v : β) : SMap β :=
  if containsKey m.entries k then ⟨replaceKey m.entries k v⟩
  else ⟨m.entries ++ [(k, v)]⟩

/-- Deletion, mirroring `Map.prototype.delete`. -/
def SMap.delete {β : Type} (m : SMap β) (k : String) : SMap β :=
  ⟨eraseKey m.entries k⟩

/-- Deleting a list of keys in order, as a `for … of` loop of deletes does. -/
def SMap.deleteMany {β : Type} (m : SMap β) (ks : List String) : SMap β :=
  ks.foldl SMap.delete m

/-- Emptiness, mirroring `Map.prototype.size === 0`. -/
def SMap.isEmpty {β : Type} (m : SMap β) : Bool :=
  m.entries.isEmpty

/-- Error kinds of the `IOError` class referenced by the client. -/
inductive IOErrorKind
  | canceled
  | transactionClosed
  | renderError
  | other
deriving DecidableEq

/-- How one awaited `this.send(…)` inside a resend engine or the IOClient send
callback settles, as distinguished by the source: a truthy non-error response,
a falsy or `type ERROR` response, a rejection with an `IOError`, or a rejection
with any other error. -/
inductive SendIOOutcome
  | ack
  | errorResponse
  | ioFailure (kind : IOErrorKind)
  | otherFailure
deriving DecidableEq

/-- State touched by `#resendPendingIOCalls`: the persistent `#pendingIOCalls`
map and the local `toResend` snapshot. -/
structure ResendIOState where
  pendingIOCalls : SMap String
  toResend : SMap String
deriving DecidableEq

/-- Settlement of one `SEND_IO_CALL` inside `#resendPendingIOCalls`
(ChronicalsClient.ts lines 508 to 550): a resolution always deletes the
`toResend` entry and additionally deletes the `#pendingIOCalls` entry when the
response is falsy or `type ERROR`; a rejection with an `IOError` of kind
CANCELED or TRANSACTION_CLOSED deletes both entries; any other rejection
leaves both entries for the next round. -/
def resendIOSettle (s : ResendIOState) (transactionId : String) (o : SendIOOutcome) :
    ResendIOState :=
  match o with
  | .ack => { s with toResend := s.toResend.delete transactionId }
  | .errorResponse =>
      { toResend := s.toResend.delete transactionId
        pendingIOCalls := s.pendingIOCalls.delete transactionId }
  | .ioFailure kind =>
      if kind = .canceled ∨ kind = .transactionClosed then
        { toResend := s.toResend.delete transactionId
          pendingIOCalls := s.pendingIOCalls.delete transactionId }
      else s
  | .otherFailure => s

/-- One `Promise.allSettled` round of `#resendPendingIOCalls`, settling every
entry of the `toResend` snapshot; `out attempt transactionId` is how the send
for that entry settles during this attempt. -/
def resendIORound (out : Nat → String → SendIOOutcome) (attempt : Nat)
    (s : ResendIOState) : ResendIOState :=
  (s.toResend.entries.map Prod.fst).foldl
    (fun acc transactionId => resendIOSettle acc transactionId (out attempt transactionId)) s

/-- State touched by `#resendPendingPageLayouts`. -/
structure ResendLayoutState where
  pendingPageLayouts : SMap String
  toResend : SMap String
deriving DecidableEq

/-- Settlement of one `SEND_PAGE` inside `#resendPendingPageLayouts`
(lines 574 to 613): same shape as the IO-call engine, with the falsy-response
check deleting `#pendingPageLayouts`. -/
def resendLayoutSettle (s : ResendLayoutState) (pageKey : String) (o : SendIOOutcome) :
    ResendLayoutState :=
  match o with
  | .ack => { s with toResend := s.toResend.delete pageKey }
  | .errorResponse =>
      { toResend := s.toResend.delete pageKey
        pendingPageLayouts := s.pendingPageLayouts.delete pageKey }
  | .ioFailure kind =>
      if kind = .canceled ∨ kind = .transactionClosed then
        { toResend := s.toResend.delete pageKey
          pendingPageLayouts := s.pendingPageLayouts.delete pageKey }
      else s
  | .otherFailure => s

/-- One round of `#resendPendingPageLayouts`. -/
def resendLayoutRound (out : Nat → String → SendIOOutcome) (attempt : Nat)
    (s : ResendLayoutState) : ResendLayoutState :=
  (s.toResend.entries.map Prod.fst).foldl
    (fun acc pageKey => resendLayoutSettle acc pageKey (out attempt pageKey)) s

/-- State touched by `#resendTransactionLoadingStates`. -/
structure ResendLoadingState where
  transactionLoadingStates : SMap String
  toResend : SMap String
deriving DecidableEq

/-- Settlement of one `SEND_LOADING_CALL` inside
`#resendTransactionLoadingStates` (lines 637 to 677). The CANCELED and
TRANSACTION_CLOSED branch of the source deletes only
`#transactionLoadingStates`, not the local `toResend` entry. -/
def resendLoadingSettle (s : ResendLoadingState) (transactionId : String)
    (o : SendIOOutcome) : ResendLoadingState :=
  match o with
  | .ack => { s with toResend := s.toResend.delete transactionId }
  | .errorResponse =>
      { toResend := s.toResend.delete transactionId
        transactionLoadingStates := s.transactionLoadingStates.delete transactionId }
  | .ioFailure kind =>
      if kind = .canceled ∨ kind = .transactionClosed then
        { s with transactionLoadingStates := s.transactionLoadingStates.delete transactionId }
      else s
  | .otherFailure => s

/-- One round of `#resendTransactionLoadingStates`. -/
def resendLoadingRound (out : Nat → String → SendIOOutcome) (attempt : Nat)
    (s : ResendLoadingState) : ResendLoadingState :=
  (s.toResend.entries.map Prod.fst).foldl
    (fun acc transactionId => resendLoadingSettle acc transactionId (out attempt transactionId)) s

/-- Fuel-indexed unfolding of the `while (toResend.size > 0 && attemptNumber <=
maxResendAttempts)` loop shared by the three resend engines. The fuel is the
number of attempt values still allowed; the first component of the result
counts the rounds actually executed. -/
def resendLoopGo {σ : Type} (round : Nat → σ → σ) (isDone : σ → Bool) :
    Nat → Nat → σ → Nat × σ
  | 0, _, s => (0, s)
  | fuel + 1, attempt, s =>
      if isDone s then (0, s)
      else
        let r := resendLoopGo round isDone fuel (attempt + 1) (round attempt s)
        (r.1 + 1, r.2)

/-- The resend loop with `attemptNumber` starting at `startAttempt` and bounded
by `attemptNumber <= maxResendAttempts`: the fuel `maxResendAttempts + 1 -
startAttempt` is exactly the number of attempt values the guard admits. -/
def resendLoopRun {σ : Type} (round : Nat → σ → σ) (isDone : σ → Bool)
    (maxResendAttempts startAttempt : Nat) (s : σ) : Nat × σ :=
  resendLoopGo round isDone (maxResendAttempts + 1 - startAttempt) startAttempt s

/-- `#resendPendingIOCalls` with no id filter: the snapshot is a copy of the
whole map and `attemptNumber` starts at 1 (line 506). -/
def resendPendingIOCallsRun (out : Nat → String → SendIOOutcome)
    (maxResendAttempts : Nat) (pending : SMap String) : Nat × ResendIOState :=
  resendLoopRun (resendIORound out) (fun s => s.toResend.isEmpty)
    maxResendAttempts 1 ⟨pending, pending⟩

/-- `#resendPendingPageLayouts`: `attemptNumber` starts at 1 (line 572). -/
def resendPendingPageLayoutsRun (out : Nat → String → SendIOOutcome)
    (maxResendAttempts : Nat) (pending : SMap String) : Nat × ResendLayoutState :=
  resendLoopRun (resendLayoutRound out) (fun s => s.toResend.isEmpty)
    maxResendAttempts 1 ⟨pending, pending⟩

/-- `#resendTransactionLoadingStates`: `attemptNumber` starts at 0 (line 635). -/
def resendTransactionLoadingStatesRun (out : Nat → String → SendIOOutcome)
    (maxResendAttempts : Nat) (pending : SMap String) : Nat × ResendLoadingState :=
  resendLoopRun (resendLoadingRound out) (fun s => s.toResend.isEmpty)
    maxResendAttempts 0 ⟨pending, pending⟩

/-- State touched by the IOClient `send` callback created in the
START_TRANSACTION handler. -/
structure IOSendState where
  pendingIOCalls : SMap String
  transactionLoadingStates : SMap String
deriving DecidableEq

/-- The IOClient `send` callback wired in the START_TRANSACTION handler (lines
876 to 908): it records the serialized call in `#pendingIOCalls`, awaits
`SEND_IO_CALL`, throws a RENDER_ERROR `IOError` on a falsy or `type ERROR`
response, and on success deletes only the transaction loading state. The
`#pendingIOCalls` entry is never deleted here. -/
def ioClientSendCall (s : IOSendState) (transactionId ioCall : String)
    (o : SendIOOutcome) : IOSendState × Except IOErrorKind Unit :=
  let s1 : IOSendState :=
    { s with pendingIOCalls := s.pendingIOCalls.set transactionId ioCall }
  match o with
  | .ack =>
      ({ s1 with
          transactionLoadingStates := s1.transactionLoadingStates.delete transactionId },
        Except.ok ())
  | .errorResponse => (s1, Except.error IOErrorKind.renderError)
  | .ioFailure kind => (s1, Except.error kind)
  | .otherFailure => (s1, Except.error IOErrorKind.other)

/-- Whether a resend-engine settlement is one of the terminal outcomes that
deletes the persistent pending entry. -/
def SendIOOutcome.isTerminalForPending : SendIOOutcome → Bool
  | .errorResponse => true
  | .ioFailure .canceled => true
  | .ioFailure .transactionClosed => true
  | _ => false

/-- Whether a resend-engine settlement is a non-terminal failure, which keeps
the entry in the `toResend` snapshot for the next round. -/
def SendIOOutcome.retriesNextRound : SendIOOutcome → Bool
  | .otherFailure => true
  | .ioFailure .canceled => false
  | .ioFailure .transactionClosed => false
  | .ioFailure _ => true
  | _ => false

/-- How one `this.#serverRpc.send` attempt inside `#send` settles. -/
inductive RpcAttemptOutcome
  | success (value : String)
  | timeout
  | failure (message : String)
deriving DecidableEq

/-- Failure of the outer `#send` wrapper. -/
inductive SendFailure
  | rethrown (message : String)
  | maxRetriesReached
deriving DecidableEq

/-- Observable trace of one `#send` call: the result, the `timeoutFactor`
passed to each rpc attempt, and the backoff sleeps that were actually awaited
between attempts. -/
structure SendTrace where
  result : Except SendFailure String
  timeoutFactors : List Nat
  awaitedWaitsMs : List Nat

/-- The retry loop of `#send` (lines 1750 to 1779), with fuel equal to the
remaining attempt values. Attempt `attemptNumber` calls `rpc.send` with
`timeoutFactor: attemptNumber`; a `TimeoutError` logs and calls
`sleep(retryIntervalMs * attemptNumber)` without awaiting it, so the loop
continues immediately and no awaited wait is recorded; any other error is
rethrown; exhaustion fails with the max-retries error. -/
def clientSendGo (out : Nat → RpcAttemptOutcome) (retryIntervalMs : Nat) :
    Nat → Nat → List Nat → List Nat → SendTrace
  | 0, _, factors, waits => ⟨Except.error SendFailure.maxRetriesReached, factors, waits⟩
  | fuel + 1, attemptNumber, factors, waits =>
      let factors := factors ++ [attemptNumber]
      match out attemptNumber with
      | .success v => ⟨Except.ok v, factors, waits⟩
      | .failure e => ⟨Except.error (SendFailure.rethrown e), factors, waits⟩
      | .timeout => clientSendGo out retryIntervalMs fuel (attemptNumber + 1) factors waits

/-- `#send(methodName, inputs)`: the loop runs `attemptNumber` from 1 to
`maxResendAttempts`. -/
def clientSend (out : Nat → RpcAttemptOutcome)
    (maxResendAttempts retryIntervalMs : Nat) : SendTrace :=
  clientSendGo out retryIntervalMs maxResendAttempts 1 [] []

/-- The same retry loop as spec section 4.9 describes it: on TIMEOUT the
client awaits a sleep of `retryIntervalMs * attemptNumber` before the next
attempt. -/
def clientSendSpecGo (out : Nat → RpcAttemptOutcome) (retryIntervalMs : Nat) :
    Nat → Nat → List Nat → List Nat → SendTrace
  | 0, _, factors, waits => ⟨Except.error SendFailure.maxRetriesReached, factors, waits⟩
  | fuel + 1, attemptNumber, factors, waits =>
      let factors := factors ++ [attemptNumber]
      match out attemptNumber with
      | .success v => ⟨Except.ok v, factors, waits⟩
      | .failure e => ⟨Except.error (SendFailure.rethrown e), factors, waits⟩
      | .timeout =>
          clientSendSpecGo out retryIntervalMs fuel (attemptNumber + 1) factors
            (waits ++ [retryIntervalMs * attemptNumber])

/-- Spec section 4.9 retry loop from attempt 1. -/
def clientSendSpec (out : Nat → RpcAttemptOutcome)
    (maxResendAttempts retryIntervalMs : Nat) : SendTrace :=
  clientSendSpecGo out retryIntervalMs maxResendAttempts 1 [] []

/-- Fields of the `INITIALIZE_HOST` and declare response the client inspects. -/
structure InitHostResponse where
  isError : Bool
  message : String
  invalidSlugs : List String
  warnings : List String
deriving DecidableEq

/-- Outcome of host initialization or declaration: success, or a thrown
`ChronicalsError` carrying its message. -/
inductive InitOutcome
  | ok
  | fatal (message : String)
deriving DecidableEq

/-- The response handling of `#initializeHost` (lines 1692 to 1741), with
`actions` the declared action slugs: a missing response or a `type error`
response throws; invalid slugs only produce warnings. -/
def initializeHostResult (actions : List String) (resp : Option InitHostResponse) :
    InitOutcome :=
  match resp with
  | none => InitOutcome.fatal "Unknown error"
  | some r =>
      if r.isError then InitOutcome.fatal r.message
      else InitOutcome.ok

/-- The response handling of `declareHost` (lines 452 to 489): a failed fetch
or parse throws, a `type error` response throws, and when every declared
action is reported invalid (`invalidSlugs.length === actionDefinitions.length`
inside the `invalidSlugs.length > 0` branch) it throws the no-valid-slugs
error. -/
def declareHostResult (actions : List String) (resp : Option InitHostResponse) :
    InitOutcome :=
  match resp with
  | none => InitOutcome.fatal "Received invalid API response."
  | some r =>
      if r.isError then
        InitOutcome.fatal ("There was a problem declaring the host: " ++ r.message)
      else if 0 < r.invalidSlugs.length then
        if r.invalidSlugs.length = actions.length then
          InitOutcome.fatal "No valid slugs provided"
        else InitOutcome.ok
      else InitOutcome.ok

/-- An argument passed to `ctx.log`, as the three-way test in `#sendLog`
distinguishes it: the JavaScript value `undefined`, a string, or any other
value carried here as the result of `JSON.stringify(arg, undefined, 2)`. -/
inductive LogArg
  | undef
  | str (s : String)
  | other (jsonStringified : String)
deriving DecidableEq

/-- The per-argument rendering in `#sendLog` (lines 1796 to 1800). -/
def logArgToString : LogArg → String
  | .undef => "undefined"
  | .str s => s
  | .other j => j

/-- The advisory appended by `#sendLog` when the log line is truncated. -/
def logTruncationNotice : String :=
  "..." ++
  "\n^ Warning: 10k logline character limit reached.\nTo avoid this error, try separating your data into multiple ctx.log() calls."

/-- The data string `#sendLog` sends (lines 1792 to 1808): `none` when the
argument list is empty (the call returns without sending); otherwise the
arguments rendered and joined with single spaces, truncated to the first
10000 characters with the advisory appended when longer than 10000. -/
def sendLogData (args : List LogArg) : Option String :=
  if args.isEmpty then none
  else
    let data := String.intercalate " " (args.map logArgToString)
    if data.length > 10000 then some (data.take 10000 ++ logTruncationNotice)
    else some data

/-- The log line as spec section 4.8 describes it: join the arguments with
spaces, keeping strings verbatim, rendering `undefined` as the literal string
and JSON-stringifying the rest; truncate to 10000 characters with a trailing
advisory. -/
def specLogLine (args : List LogArg) : String :=
  let joined := String.intercalate " "
    (args.map fun a =>
      match a with
      | .undef => "undefined"
      | .str s => s
      | .other j => j)
  if joined.length > 10000 then joined.take 10000 ++ logTruncationNotice
  else joined

/-- The timing and retry keys of the constructor configuration; `none` models
an absent key. -/
structure ClientConfig where
  retryIntervalMs : Option Int
  pingIntervalMs : Option Int
  closeUnresponsiveConnectionTimeoutMs : Option Int
  reinitializeBatchTimeoutMs : Option Int
  completeHttpRequestDelayMs : Option Int
  maxResendAttempts : Option Int
deriving DecidableEq

/-- The timing and retry fields of the client after construction. -/
structure ClientSettings where
  retryIntervalMs : Int
  pingIntervalMs : Int
  closeUnresponsiveConnectionTimeoutMs : Int
  reinitializeBatchTimeoutMs : Int
  completeHttpRequestDelayMs : Int
  maxResendAttempts : Int
deriving DecidableEq

/-- One `if (config.x && config.x > 0) this.#x = config.x` guard of the
constructor (lines 140 to 172): the configured value is adopted only when it
is present, truthy, and positive. -/
def resolveSetting (dflt : Int) : Option Int → Int
  | none => dflt
  | some v => if v ≠ 0 ∧ 0 < v then v else dflt

/-- The constructor applied to a configuration, with the field initializers of
lines 104 to 110 as defaults. -/
def applyConfig (c : ClientConfig) : ClientSettings where
  retryIntervalMs := resolveSetting 3000 c.retryIntervalMs
  pingIntervalMs := resolveSetting 30000 c.pingIntervalMs
  closeUnresponsiveConnectionTimeoutMs :=
    resolveSetting 180000 c.closeUnresponsiveConnectionTimeoutMs
  reinitializeBatchTimeoutMs := resolveSetting 200 c.reinitializeBatchTimeoutMs
  completeHttpRequestDelayMs := resolveSetting 3000 c.completeHttpRequestDelayMs
  maxResendAttempts := resolveSetting 10 c.maxResendAttempts

/-- How a running action handler settles: a resolution, a rejection other
than an uncaught CANCELED (both of which produce a result envelope), or an
uncaught CANCELED `IOError` rethrown past the envelope stage. -/
inductive HandlerOutcome
  | success
  | failure
  | canceledUncaught
deriving DecidableEq

/-- Observable steps of the RPC handler layer: an action handler invocation,
its settlement, a `MARK_TRANSACTION_COMPLETE` send, and a page handler
invocation. -/
inductive Obs
  | invokeAction (transactionId : String)
  | settleAction (transactionId : String) (outcome : HandlerOutcome)
  | markComplete (transactionId : String)
  | invokePage (pageKey : String)
deriving DecidableEq

/-- The slice of an IOClient the client reads back: the inline action keys it
registered. -/
structure IOClientEntry where
  inlineActionKeys : List String
deriving DecidableEq

/-- The shared mutable state of `ChronicalsClient` the inbound RPC handlers
touch. `shuttingDown` models `#resolveShutdown` being set by `safelyClose`;
`runningActions` is the bag of action handler executions started and not yet
settled, each with its `displayResolvesImmediately` flag. -/
structure ClientState where
  shuttingDown : Bool
  hasOrganization : Bool
  actionHandlers : SMap Unit
  pageHandlers : SMap Unit
  ioClients : SMap IOClientEntry
  ioResponseHandlers : SMap Unit
  pendingIOCalls : SMap String
  openPages : SMap Unit
  pendingPageLayouts : SMap String
  transactionLoadingStates : SMap String
  runningActions : List (String × Bool)
  obs : List Obs
deriving DecidableEq

/-- Inline action keys of the IOClient registered under an id, empty when no
client is registered. -/
def inlineKeysOf (s : ClientState) (id : String) : List String :=
  match s.ioClients.get? id with
  | some c => c.inlineActionKeys
  | none => []

/-- `#closeTransaction` (lines 685 to 704): deletes the pending IO call, the
loading state and the io-response handler of the transaction, and when an
IOClient is registered for it, deletes the client and every inline action key
the client registered. -/
def closeTransactionFn (s : ClientState) (transactionId : String) : ClientState :=
  let s1 :=
    { s with
      pendingIOCalls := s.pendingIOCalls.delete transactionId
      transactionLoadingStates := s.transactionLoadingStates.delete transactionId
      ioResponseHandlers := s.ioResponseHandlers.delete transactionId }
  match s.ioClients.get? transactionId with
  | none => s1
  | some c =>
      { s1 with
        ioClients := s1.ioClients.delete transactionId
        actionHandlers := s1.actionHandlers.deleteMany c.inlineActionKeys }

/-- The CLOSE_PAGE handler (lines 1606 to 1644): removes the page from the
open-pages set, drops the IOClient and its inline action keys, and deletes
the pending layout, io-response handler and loading state of the page. -/
def closePageFn (s : ClientState) (pageKey : String) : ClientState :=
  let s1 := { s with openPages := s.openPages.delete pageKey }
  let s2 :=
    match s1.ioClients.get? pageKey with
    | none => s1
    | some c =>
        { s1 with
          actionHandlers := s1.actionHandlers.deleteMany c.inlineActionKeys
          ioClients := s1.ioClients.delete pageKey }
  { s2 with
    pendingPageLayouts := s2.pendingPageLayouts.delete pageKey
    ioResponseHandlers := s2.ioResponseHandlers.delete pageKey
    transactionLoadingStates := s2.transactionLoadingStates.delete pageKey }

/-- The START_TRANSACTION handler (lines 845 to 1122): drop when shutting
down, when no organization is known, when the transaction already has a
registered io-response handler, or when no action handler matches the slug;
otherwise register an IOClient and the io-response handler and invoke the
action handler. -/
def stepStart (s : ClientState) (transactionId slug : String)
    (displayResolvesImmediately : Bool) : ClientState :=
  if s.shuttingDown then s
  else if !s.hasOrganization then s
  else if s.ioResponseHandlers.contains transactionId then s
  else if !(s.actionHandlers.contains slug) then s
  else
    { s with
      ioResponseHandlers := s.ioResponseHandlers.set transactionId ()
      ioClients := s.ioClients.set transactionId ⟨[]⟩
      runningActions := s.runningActions ++ [(transactionId, displayResolvesImmediately)]
      obs := s.obs ++ [Obs.invokeAction transactionId] }

/-- Removal of the first running execution of a transaction from the bag,
returning its `displayResolvesImmediately` flag. -/
def popRunning : List (String × Bool) → String → Option (Bool × List (String × Bool))
  | [], _ => none
  | p :: rest, t =>
      if p.1 = t then some (p.2, rest)
      else (popRunning rest t).map fun q => (q.1, p :: q.2)

/-- Settlement of one running action handler (the promise chain of
`handleAction`, lines 976 to 1111): a success or failure envelope is followed
by exactly one `MARK_TRANSACTION_COMPLETE`; an uncaught CANCELED skips the
completion send; finally the transaction is closed unless
`displayResolvesImmediately`. -/
def stepSettle (s : ClientState) (transactionId : String) (o : HandlerOutcome) :
    ClientState :=
  match popRunning s.runningActions transactionId with
  | none => s
  | some (displayResolvesImmediately, rest) =>
      let s1 :=
        { s with
          runningActions := rest
          obs := s.obs ++ [Obs.settleAction transactionId o] ++
            (if o = HandlerOutcome.canceledUncaught then []
             else [Obs.markComplete transactionId]) }
      if displayResolvesImmediately then s1 else closeTransactionFn s1 transactionId

/-- Responses of the OPEN_PAGE handler. -/
inductive PageResponse
  | success (pageKey : String)
  | error (message : String)
deriving DecidableEq

/-- The OPEN_PAGE handler up to its synchronous return (lines 1154 to 1604):
refuse with a `type ERROR` response when shutting down, when no organization
is known, or when no page handler matches the slug; otherwise add the page to
the open-pages set, register the IOClient and io-response handler, invoke the
page handler and return success. -/
def stepOpenPage (s : ClientState) (pageKey slug : String) : ClientState × PageResponse :=
  if s.shuttingDown then (s, PageResponse.error "Host shutting down.")
  else if !s.hasOrganization then (s, PageResponse.error "No organization defined.")
  else if !(s.pageHandlers.contains slug) then
    (s, PageResponse.error "No page handler found.")
  else
    let s1 := { s with openPages := s.openPages.set pageKey () }
    let s2 :=
      { s1 with
        ioClients := s1.ioClients.set pageKey ⟨[]⟩
        ioResponseHandlers := s1.ioResponseHandlers.set pageKey () }
    ({ s2 with obs := s2.obs ++ [Obs.invokePage pageKey] }, PageResponse.success pageKey)

/-- Inbound RPC events together with the settle points of the action handler
executions they start. -/
inductive RpcEvent
  | startTransaction (transactionId slug : String) (displayResolvesImmediately : Bool)
  | settleHandler (transactionId : String) (outcome : HandlerOutcome)
  | closeTransaction (transactionId : String)
  | openPage (pageKey slug : String)
  | closePage (pageKey : String)
deriving DecidableEq

/-- One event of the RPC handler layer. -/
def stepEvent (s : ClientState) : RpcEvent → ClientState
  | .startTransaction t slug dri => stepStart s t slug dri
  | .settleHandler t o => stepSettle s t o
  | .closeTransaction t => closeTransactionFn s t
  | .openPage k slug => (stepOpenPage s k slug).1
  | .closePage k => closePageFn s k

/-- Replay of a sequence of events from a state. -/
def runFrom (s : ClientState) (es : List RpcEvent) : ClientState :=
  es.foldl stepEvent s

/-- The client state right after `#initializeHost` succeeded: registered
action and page handler slugs, organization known, nothing running. -/
def initialState (actionSlugs pageSlugs : List String) : ClientState where
  shuttingDown := false
  hasOrganization := true
  actionHandlers := ⟨actionSlugs.map fun s => (s, ())⟩
  pageHandlers := ⟨pageSlugs.map fun s => (s, ())⟩
  ioClients := ⟨[]⟩
  ioResponseHandlers := ⟨[]⟩
  pendingIOCalls := ⟨[]⟩
  openPages := ⟨[]⟩
  pendingPageLayouts := ⟨[]⟩
  transactionLoadingStates := ⟨[]⟩
  runningActions := []
  obs := []

/-- Replay of a sequence of events on a fresh serving client. -/
def runEvents (actionSlugs pageSlugs : List String) (es : List RpcEvent) : ClientState :=
  runFrom (initialState actionSlugs pageSlugs) es

/-- Number of action handler invocations recorded for a transaction. -/
def countInvokes (t : String) : List Obs → Nat
  | [] => 0
  | o :: rest =>
      (match o with
        | .invokeAction t2 => if t2 = t then 1 else 0
        | _ => 0) + countInvokes t rest

/-- Number of handler settlements recorded for a transaction. -/
def countSettles (t : String) : List Obs → Nat
  | [] => 0
  | o :: rest =>
      (match o with
        | .settleAction t2 _ => if t2 = t then 1 else 0
        | _ => 0) + countSettles t rest

/-- Number of handler settlements of a transaction other than an uncaught
CANCELED. -/
def countGoodSettles (t : String) : List Obs → Nat
  | [] => 0
  | o :: rest =>
      (match o with
        | .settleAction t2 oc =>
            if t2 = t ∧ oc ≠ HandlerOutcome.canceledUncaught then 1 else 0
        | _ => 0) + countGoodSettles t rest

/-- Number of `MARK_TRANSACTION_COMPLETE` sends recorded for a transaction. -/
def countCompletes (t : String) : List Obs → Nat
  | [] => 0
  | o :: rest =>
      (match o with
        | .markComplete t2 => if t2 = t then 1 else 0
        | _ => 0) + countCompletes t rest

/-- Number of live handler executions of a transaction in the running bag. -/
def liveCount (t : String) : List (String × Bool) → Nat
  | [] => 0
  | p :: rest => (if p.1 = t then 1 else 0) + liveCount t rest

/-- Observable send activity of one page session: the start of a `sendPage`
call with the payload it serializes, and its settlement. -/
inductive PageObs
  | sendStart (payload : Option String)
  | sendDone
deriving DecidableEq

/-- Render payload and coalescing flags of one page session (lines 1316 to
1370): `sendPagePromise` is true while a `sendPage` call is in flight,
`pageSendTimeout` while the zero-delay timer is pending, `newPageScheduled`
when a follow-up send is requested, and `renderInstruction` is the latest
instruction stored by the IOClient send callback. -/
structure PageCoalesceState where
  sendPagePromise : Bool
  pageSendTimeout : Bool
  newPageScheduled : Bool
  renderInstruction : Option String
  obs : List PageObs
deriving DecidableEq

/-- `scheduleSendPage` (lines 1347 to 1355): request a send; return early when
a send is in flight or a timer is already pending, else arm the timer. -/
def scheduleSendPageFn (s : PageCoalesceState) : PageCoalesceState :=
  let s := { s with newPageScheduled := true }
  if s.sendPagePromise then s
  else if s.pageSendTimeout then s
  else { s with pageSendTimeout := true }

/-- Events of one open page session: a render update from the IOClient send
callback (store the instruction, then `scheduleSendPage`), the zero-delay
timer firing (`processSendPage`, which starts `sendPage` with the current
payload), and the in-flight `sendPage` settling (clear the promise and
reschedule when requested). -/
inductive PageUpdateEvent
  | update (instruction : String)
  | timerFire
  | settle
deriving DecidableEq

/-- One step of the page session. -/
def stepPage (s : PageCoalesceState) : PageUpdateEvent → PageCoalesceState
  | .update x => scheduleSendPageFn { s with renderInstruction := some x }
  | .timerFire =>
      if s.pageSendTimeout then
        { s with
          newPageScheduled := false
          pageSendTimeout := false
          sendPagePromise := true
          obs := s.obs ++ [PageObs.sendStart s.renderInstruction] }
      else s
  | .settle =>
      if s.sendPagePromise then
        let s1 := { s with sendPagePromise := false, obs := s.obs ++ [PageObs.sendDone] }
        if s1.newPageScheduled then scheduleSendPageFn s1 else s1
      else s

/-- A fresh page session with no send activity. -/
def initialPageState : PageCoalesceState where
  sendPagePromise := false
  pageSendTimeout := false
  newPageScheduled := false
  renderInstruction := none
  obs := []

/-- Replay of a sequence of page session events. -/
def runPage (es : List PageUpdateEvent) : PageCoalesceState :=
  es.foldl stepPage initialPageState

/-- Effect of one page event on the latest render instruction. -/
def applyUpdate (acc : Option String) : PageUpdateEvent → Option String
  | .update x => some x
  | _ => acc

/-- The latest render instruction in a sequence of page events. -/
def lastUpdate (es : List PageUpdateEvent) : Option String :=
  es.foldl applyUpdate none

/-- Number of `sendPage` calls started. -/
def sendStartCount : List PageObs → Nat
  | [] => 0
  | o :: rest =>
      (match o with
        | .sendStart _ => 1
        | _ => 0) + sendStartCount rest

/-- Number of `sendPage` calls settled. -/
def sendDoneCount : List PageObs → Nat
  | [] => 0
  | o :: rest =>
      (match o with
        | .sendDone => 1
        | _ => 0) + sendDoneCount rest

/-- A serving client that has begun a graceful shutdown: `safelyClose` has
sent `BEGIN_HOST_SHUTDOWN` and set `#resolveShutdown` to wait for the drain. -/
def shutdownExampleState : ClientState :=
  { initialState ["refund"] ["dash"] with shuttingDown := true }

/-- A serving client in which transaction `t1` has been started and its
handler is still running. -/
def dupStartState : ClientState :=
  runEvents ["refund"] [] [RpcEvent.startTransaction "t1" "refund" false]

theorem findKey_eraseKey {β : Type} (l : List (String × β)) (k u : String) :
    findKey (eraseKey l k) u = if u = k then none else findKey l u := by
  induction l with
  | nil => by_cases h : u = k <;> simp [eraseKey, findKey, h]
  | cons p t ih =>
      by_cases hpk : p.1 = k
      · by_cases huk : u = k
        · subst huk
          simp only [eraseKey, hpk, if_true] at ih ⊢
          simpa using ih
        · have hpu : ¬ p.1 = u := fun h => huk (by rw [← h, hpk])
          have hku : ¬ k = u := fun h => huk h.symm
          simp [eraseKey, hpk, findKey, hpu, ih, huk, hku]
      · by_cases hpu : p.1 = u
        · have huk : ¬ u = k := fun h => hpk (by rw [hpu, h])
          simp [eraseKey, hpk, findKey, hpu, huk]
        · simp [eraseKey, hpk, findKey, hpu, ih]

theorem findKey_replaceKey_self {β : Type} (l : List (String × β)) (k : String) (v : β)
    (h : containsKey l k = true) : findKey (replaceKey l k v) k = some v := by
  induction l with
  | nil => simp [containsKey] at h
  | cons p t ih =>
      by_cases hpk : p.1 = k
      · simp [replaceKey, hpk, findKey]
      · simp only [containsKey, hpk, if_false] at h
        simp [replaceKey, hpk, findKey, ih h]

theorem findKey_replaceKey_ne {β : Type} (l : List (String × β)) (k u : String) (v : β)
    (h : ¬ u = k) : findKey (replaceKey l k v) u = findKey l u := by
  induction l with
  | nil => simp [replaceKey]
  | cons p t ih =>
      by_cases hpk : p.1 = k
      · have hku : ¬ k = u := fun hh => h hh.symm
        have hpu : ¬ p.1 = u := fun hh => h (by rw [← hh, hpk])
        simp [replaceKey, hpk, findKey, hku, hpu, ih]
      · by_cases hpu : p.1 = u
        · simp [replaceKey, hpk, findKey, hpu, h]
        · simp [replaceKey, hpk, findKey, hpu, ih]

theorem findKey_append {β : Type} (l1 l2 : List (String × β)) (u : String) :
    findKey (l1 ++ l2) u = ((findKey l1 u).rec (findKey l2 u) fun v => some v) := by
  induction l1 with
  | nil => simp [findKey]
  | cons p t ih =>
      by_cases hpu : p.1 = u
      · simp [findKey, hpu]
      · simp [findKey, hpu, ih]

theorem findKey_none_of_not_contains {β : Type} (l : List (String × β)) (k : String)
    (h : containsKey l k = false) : findKey l k = none := by
  induction l with
  | nil => rfl
  | cons p t ih =>
      by_cases hpk : p.1 = k
      · simp [containsKey, hpk] at h
      · simp only [containsKey, hpk, if_false] at h
        simp [findKey, hpk, ih h]

theorem SMap.get?_delete {β : Type} (m : SMap β) (k u : String) :
    (m.delete k).get? u = if u = k then none else m.get? u :=
  findKey_eraseKey m.entries k u

theorem SMap.get?_set {β : Type} (m : SMap β) (k u : String) (v : β) :
    (m.set k v).get? u = if u = k then some v else m.get? u := by
  unfold SMap.set SMap.get?
  by_cases hc : containsKey m.entries k = true
  · simp only [hc, if_true]
    by_cases huk : u = k
    · subst huk
      simp [findKey_replaceKey_self m.entries u v hc]
    · simp [findKey_replaceKey_ne m.entries k u v huk, huk]
  · simp only [Bool.not_eq_true] at hc
    simp only [hc, Bool.false_eq_true, if_false]
    by_cases huk : u = k
    · subst huk
      simp [findKey_append, findKey_none_of_not_contains m.entries u hc, findKey]
    · have hku : ¬ k = u := fun hh => huk hh.symm
      cases hfind : findKey m.entries u <;>
        simp [findKey_append, hfind, findKey, hku, huk]

theorem SMap.get?_deleteMany {β : Type} (m : SMap β) (ks : List String) (u : String) :
    (m.deleteMany ks).get? u = if u ∈ ks then none else m.get? u := by
  unfold SMap.deleteMany
  induction ks generalizing m with
  | nil => simp
  | cons k rest ih =>
      simp only [List.foldl_cons, ih, SMap.get?_delete, List.mem_cons]
      by_cases h1 : u ∈ rest
      · simp [h1]
      · by_cases h2 : u = k <;> simp [h1, h2]

/-- C1 is false as stated: after the orchestrator acks a `SEND_IO_CALL` with a
non-error response, the pending-IO entry is still present, both on the initial
send from the IOClient callback and on a resend-engine round. -/
theorem C1_counterexample :
    ((ioClientSendCall ⟨⟨[]⟩, ⟨[]⟩⟩ "t1" "call1" SendIOOutcome.ack).1.pendingIOCalls.get? "t1"
      = some "call1")
  ∧ ((resendIOSettle ⟨⟨[("t1", "call1")]⟩, ⟨[("t1", "call1")]⟩⟩ "t1"
        SendIOOutcome.ack).pendingIOCalls.get? "t1" = some "call1") := by
  exact ⟨rfl, rfl⟩

/-- C1 (amended): a send settlement removes a pending-IO entry only on a
terminal error: inside the resend engine a falsy or `type ERROR` response, or
an `IOError` of kind CANCELED or TRANSACTION_CLOSED, deletes the entry, while
a successful ack and any non-terminal failure leave it in place for later
replay; the initial IOClient send never removes the entry, it always stores
the serialized call (an error response raises RENDER_ERROR with the entry
kept, and the entry disappears only when the transaction closes). -/
theorem C1_pendingIO_terminal_removal (s : ResendIOState) (s2 : IOSendState)
    (t t2 ioCall : String) (o o2 : SendIOOutcome) :
    ((resendIOSettle s t o).pendingIOCalls
      = if o.isTerminalForPending then s.pendingIOCalls.delete t else s.pendingIOCalls)
  ∧ ((resendIOSettle s t o).toResend
      = if o.retriesNextRound then s.toResend else s.toResend.delete t)
  ∧ ((ioClientSendCall s2 t2 ioCall o2).1.pendingIOCalls = s2.pendingIOCalls.set t2 ioCall)
  ∧ ((ioClientSendCall s2 t2 ioCall o2).2
      = if o2 = SendIOOutcome.ack then Except.ok () else
          Except.error
            (match o2 with
              | SendIOOutcome.ioFailure k => k
              | SendIOOutcome.otherFailure => IOErrorKind.other
              | _ => IOErrorKind.renderError)) := by
  refine ⟨?_, ?_, ?_, ?_⟩
  · cases o with
    | ack => rfl
    | errorResponse => rfl
    | ioFailure k =>
        cases k <;> simp [resendIOSettle, SendIOOutcome.isTerminalForPending]
    | otherFailure => rfl
  · cases o with
    | ack => rfl
    | errorResponse => rfl
    | ioFailure k =>
        cases k <;>
          simp [resendIOSettle, SendIOOutcome.retriesNextRound]
    | otherFailure => rfl
  · cases o2 <;> rfl
  · cases o2 <;> rfl

/-- C4: the code of `#send` never awaits the backoff sleep after a TIMEOUT
(line 1770 calls `sleep(...)` without `await`), so the next attempt starts
with no awaited wait, while the spec-described loop awaits `retryIntervalMs *
attemptNumber`; the remaining conduct of the loop matches the claim: the
`timeoutFactor` equals the attempt number, a non-TIMEOUT error is rethrown
immediately, and exhaustion fails with the max-retries error. -/
theorem C4_send_retry_eval :
    ((clientSend (fun n => if n = 1 then RpcAttemptOutcome.timeout
        else RpcAttemptOutcome.success "ok") 10 3000).awaitedWaitsMs = [])
  ∧ ((clientSend (fun n => if n = 1 then RpcAttemptOutcome.timeout
        else RpcAttemptOutcome.success "ok") 10 3000).timeoutFactors = [1, 2])
  ∧ ((clientSend (fun n => if n = 1 then RpcAttemptOutcome.timeout
        else RpcAttemptOutcome.success "ok") 10 3000).result = Except.ok "ok")
  ∧ ((clientSendSpec (fun n => if n = 1 then RpcAttemptOutcome.timeout
        else RpcAttemptOutcome.success "ok") 10 3000).awaitedWaitsMs = [3000])
  ∧ ((clientSend (fun _ => RpcAttemptOutcome.failure "boom") 10 3000).result
      = Except.error (SendFailure.rethrown "boom"))
  ∧ ((clientSend (fun _ => RpcAttemptOutcome.failure "boom") 10 3000).timeoutFactors = [1])
  ∧ ((clientSend (fun _ => RpcAttemptOutcome.timeout) 3 3000).result
      = Except.error SendFailure.maxRetriesReached)
  ∧ ((clientSend (fun _ => RpcAttemptOutcome.timeout) 3 3000).timeoutFactors = [1, 2, 3])
  ∧ ((clientSend (fun _ => RpcAttemptOutcome.timeout) 3 3000).awaitedWaitsMs = []) := by
  exact ⟨rfl, rfl, rfl, rfl, rfl, rfl, rfl, rfl, rfl⟩

/-- C5: with `maxResendAttempts = 2` and entries whose sends always fail
non-terminally, the IO-call and page-layout engines perform 2 rounds, but the
loading-state engine performs 3 rounds because its `attemptNumber` starts at
0, exceeding the claimed bound of `maxResendAttempts` rounds. -/
theorem C5_resend_round_counts :
    ((resendPendingIOCallsRun (fun _ _ => SendIOOutcome.otherFailure) 2 ⟨[("t1", "c1")]⟩).1 = 2)
  ∧ ((resendPendingPageLayoutsRun (fun _ _ => SendIOOutcome.otherFailure) 2
        ⟨[("p1", "l1")]⟩).1 = 2)
  ∧ ((resendTransactionLoadingStatesRun (fun _ _ => SendIOOutcome.otherFailure) 2
        ⟨[("t1", "s1")]⟩).1 = 3) := by
  exact ⟨rfl, rfl, rfl⟩

/-- C6 is false as stated: an `INITIALIZE_HOST` success response in which
every declared action slug is reported invalid does not make `#initializeHost`
throw; the persistent-connection path only logs warnings. -/
theorem C6_counterexample :
    initializeHostResult ["!bad"] (some ⟨false, "", ["!bad"], []⟩) = InitOutcome.ok := rfl

/-- C6 (amended): a missing or `type error` response is fatal in both
`#initializeHost` and `declareHost`, but an all-invalid-slugs success response
is fatal only in the single-shot `declareHost` path; `#initializeHost`
succeeds on any success response regardless of `invalidSlugs`. -/
theorem C6_initialize_fatal_paths (actions : List String) (r : InitHostResponse) :
    (initializeHostResult actions none = InitOutcome.fatal "Unknown error")
  ∧ (declareHostResult actions none = InitOutcome.fatal "Received invalid API response.")
  ∧ (r.isError = true →
      initializeHostResult actions (some r) = InitOutcome.fatal r.message
      ∧ declareHostResult actions (some r)
          = InitOutcome.fatal ("There was a problem declaring the host: " ++ r.message))
  ∧ (r.isError = false → 0 < actions.length → r.invalidSlugs.length = actions.length →
      declareHostResult actions (some r) = InitOutcome.fatal "No valid slugs provided"
      ∧ initializeHostResult actions (some r) = InitOutcome.ok) := by
  refine ⟨rfl, rfl, ?_, ?_⟩
  · intro h
    constructor
    · simp [initializeHostResult, h]
    · simp [declareHostResult, h]
  · intro h hlen heq
    have hpos : 0 < r.invalidSlugs.length := heq ▸ hlen
    constructor
    · have hne : actions ≠ [] := by
        intro hnil
        rw [hnil] at hlen
        simp at hlen
      simp [declareHostResult, h, hpos, heq, hne]
    · simp [initializeHostResult, h]

/-- C6 witness: with the single action slug `!bad` declared and a success
response reporting it invalid, `declareHost` fails fatally while
`#initializeHost` succeeds. -/
theorem C6_witness :
    declareHostResult ["!bad"] (some ⟨false, "", ["!bad"], []⟩)
        = InitOutcome.fatal "No valid slugs provided"
  ∧ initializeHostResult ["!bad"] (some ⟨false, "", ["!bad"], []⟩) = InitOutcome.ok :=
  (C6_initialize_fatal_paths ["!bad"] ⟨false, "", ["!bad"], []⟩).2.2.2 rfl (by decide) rfl

/-- C9: for every non-empty argument list, the data string built by `#sendLog`
is exactly the log line the spec describes: arguments rendered (undefined to
the literal string, strings verbatim, other values by their 2-space-indented
JSON rendering), joined with single spaces, and truncated to the first 10000
characters with the trailing advisory when longer than 10000. -/
theorem C9_log_line_format (args : List LogArg) (h : args ≠ []) :
    sendLogData args = some (specLogLine args) := by
  have hmap : ∀ l : List LogArg,
      l.map logArgToString
        = l.map fun a =>
            match a with
            | LogArg.undef => "undefined"
            | LogArg.str s => s
            | LogArg.other j => j := by
    intro l
    induction l with
    | nil => rfl
    | cons b r ih => cases b <;> simp [logArgToString, ih]
  cases args with
  | nil => exact absurd rfl h
  | cons a rest =>
      simp only [sendLogData, specLogLine, List.isEmpty_cons, hmap]
      rw [if_neg (by simp)]
      split <;> rfl

/-- C9 witness: a concrete two-argument log call. -/
theorem C9_witness :
    sendLogData [LogArg.str "hello", LogArg.undef]
      = some (specLogLine [LogArg.str "hello", LogArg.undef]) :=
  C9_log_line_format [LogArg.str "hello", LogArg.undef] (by decide)

theorem sendStartCount_append (l1 l2 : List PageObs) :
    sendStartCount (l1 ++ l2) = sendStartCount l1 + sendStartCount l2 := by
  induction l1 with
  | nil => simp [sendStartCount]
  | cons o rest ih =>
      simp only [List.cons_append, sendStartCount, List.append_eq, ih]
      omega

theorem sendDoneCount_append (l1 l2 : List PageObs) :
    sendDoneCount (l1 ++ l2) = sendDoneCount l1 + sendDoneCount l2 := by
  induction l1 with
  | nil => simp [sendDoneCount]
  | cons o rest ih =>
      simp only [List.cons_append, sendDoneCount, List.append_eq, ih]
      omega

theorem scheduleSendPageFn_fields (s : PageCoalesceState) :
    (scheduleSendPageFn s).renderInstruction = s.renderInstruction
    ∧ (scheduleSendPageFn s).obs = s.obs
    ∧ (scheduleSendPageFn s).sendPagePromise = s.sendPagePromise
    ∧ (scheduleSendPageFn s).newPageScheduled = true
    ∧ (scheduleSendPageFn s).pageSendTimeout
        = (s.pageSendTimeout || !s.sendPagePromise) := by
  unfold scheduleSendPageFn
  cases hsp : s.sendPagePromise <;> cases hst : s.pageSendTimeout <;> simp [hsp, hst]

theorem stepPage_counts (s : PageCoalesceState) (e : PageUpdateEvent)
    (h1 : (s.pageSendTimeout && s.sendPagePromise) = false)
    (h2 : sendStartCount s.obs
        = sendDoneCount s.obs + (if s.sendPagePromise then 1 else 0)) :
    ((stepPage s e).pageSendTimeout && (stepPage s e).sendPagePromise) = false
    ∧ sendStartCount (stepPage s e).obs
        = sendDoneCount (stepPage s e).obs
          + (if (stepPage s e).sendPagePromise then 1 else 0) := by
  cases e with
  | update x =>
      cases hsp : s.sendPagePromise <;> cases hst : s.pageSendTimeout <;>
        simp_all [stepPage, scheduleSendPageFn]
  | timerFire =>
      cases hst : s.pageSendTimeout <;> cases hsp : s.sendPagePromise <;>
        simp_all [stepPage, sendStartCount_append, sendDoneCount_append,
          sendStartCount, sendDoneCount]
  | settle =>
      cases hsp : s.sendPagePromise <;> cases hnp : s.newPageScheduled <;>
          cases hst : s.pageSendTimeout <;>
        simp_all [stepPage, scheduleSendPageFn, sendStartCount_append,
          sendDoneCount_append, sendStartCount, sendDoneCount]

theorem runFrom_page_counts (es : List PageUpdateEvent) (s : PageCoalesceState)
    (h1 : (s.pageSendTimeout && s.sendPagePromise) = false)
    (h2 : sendStartCount s.obs
        = sendDoneCount s.obs + (if s.sendPagePromise then 1 else 0)) :
    ((es.foldl stepPage s).pageSendTimeout && (es.foldl stepPage s).sendPagePromise) = false
    ∧ sendStartCount (es.foldl stepPage s).obs
        = sendDoneCount (es.foldl stepPage s).obs
          + (if (es.foldl stepPage s).sendPagePromise then 1 else 0) := by
  induction es generalizing s with
  | nil => exact ⟨h1, h2⟩
  | cons e rest ih =>
      have h := stepPage_counts s e h1 h2
      simpa [List.foldl_cons] using ih (stepPage s e) h.1 h.2

theorem stepPage_render (s : PageCoalesceState) (e : PageUpdateEvent) :
    (stepPage s e).renderInstruction = applyUpdate s.renderInstruction e := by
  cases e with
  | update x =>
      simp [stepPage, applyUpdate, (scheduleSendPageFn_fields _).1]
  | timerFire =>
      cases hst : s.pageSendTimeout <;> simp [stepPage, applyUpdate, hst]
  | settle =>
      cases hsp : s.sendPagePromise <;> cases hnp : s.newPageScheduled <;>
        simp [stepPage, applyUpdate, hsp, hnp, (scheduleSendPageFn_fields _).1]

theorem runFrom_page_render (es : List PageUpdateEvent) (s : PageCoalesceState) :
    (es.foldl stepPage s).renderInstruction = es.foldl applyUpdate s.renderInstruction := by
  induction es generalizing s with
  | nil => rfl
  | cons e rest ih =>
      simp only [List.foldl_cons]
      rw [ih (stepPage s e), stepPage_render s e]

theorem countInvokes_append (t : String) (l1 l2 : List Obs) :
    countInvokes t (l1 ++ l2) = countInvokes t l1 + countInvokes t l2 := by
  induction l1 with
  | nil => simp [countInvokes]
  | cons o rest ih =>
      simp only [List.cons_append, countInvokes, List.append_eq, ih]
      omega

theorem countSettles_append (t : String) (l1 l2 : List Obs) :
    countSettles t (l1 ++ l2) = countSettles t l1 + countSettles t l2 := by
  induction l1 with
  | nil => simp [countSettles]
  | cons o rest ih =>
      simp only [List.cons_append, countSettles, List.append_eq, ih]
      omega

theorem countGoodSettles_append (t : String) (l1 l2 : List Obs) :
    countGoodSettles t (l1 ++ l2) = countGoodSettles t l1 + countGoodSettles t l2 := by
  induction l1 with
  | nil => simp [countGoodSettles]
  | cons o rest ih =>
      simp only [List.cons_append, countGoodSettles, List.append_eq, ih]
      omega

theorem countCompletes_append (t : String) (l1 l2 : List Obs) :
    countCompletes t (l1 ++ l2) = countCompletes t l1 + countCompletes t l2 := by
  induction l1 with
  | nil => simp [countCompletes]
  | cons o rest ih =>
      simp only [List.cons_append, countCompletes, List.append_eq, ih]
      omega

theorem liveCount_append (t : String) (l1 l2 : List (String × Bool)) :
    liveCount t (l1 ++ l2) = liveCount t l1 + liveCount t l2 := by
  induction l1 with
  | nil => simp [liveCount]
  | cons p rest ih =>
      simp only [List.cons_append, liveCount, List.append_eq, ih]
      omega

theorem popRunning_liveCount (l : List (String × Bool)) (t2 : String) (d : Bool)
    (l2 : List (String × Bool)) (h : popRunning l t2 = some (d, l2)) (u : String) :
    liveCount u l = liveCount u l2 + (if t2 = u then 1 else 0) := by
  induction l generalizing l2 with
  | nil => simp [popRunning] at h
  | cons p rest ih =>
      simp only [popRunning] at h
      by_cases hp : p.1 = t2
      · rw [if_pos hp] at h
        have h2 := Option.some.inj h
        have hl : rest = l2 := congrArg Prod.snd h2
        subst hl
        simp only [liveCount, hp]
        by_cases ht : t2 = u <;> simp [ht] <;> omega
      · rw [if_neg hp] at h
        cases hrec : popRunning rest t2 with
        | none => rw [hrec] at h; simp at h
        | some q =>
            obtain ⟨q1, q2⟩ := q
            rw [hrec] at h
            simp only [Option.map] at h
            have h2 := Option.some.inj h
            have hl : p :: q2 = l2 := congrArg Prod.snd h2
            subst hl
            have hrest := ih q2 (by rw [hrec, show q1 = d from congrArg Prod.fst h2])
            simp only [liveCount, hrest]
            omega

theorem closeTransactionFn_preserves (s : ClientState) (t2 : String) :
    (closeTransactionFn s t2).obs = s.obs
    ∧ (closeTransactionFn s t2).runningActions = s.runningActions := by
  cases hc : s.ioClients.get? t2 <;> simp [closeTransactionFn, hc]

theorem closePageFn_preserves (s : ClientState) (k : String) :
    (closePageFn s k).obs = s.obs
    ∧ (closePageFn s k).runningActions = s.runningActions := by
  cases hc : s.ioClients.get? k <;> simp [closePageFn, hc]

theorem stepEvent_inv (tr : String) (s : ClientState) (e : RpcEvent)
    (h1 : countInvokes tr s.obs = countSettles tr s.obs + liveCount tr s.runningActions)
    (h2 : countCompletes tr s.obs = countGoodSettles tr s.obs) :
    countInvokes tr (stepEvent s e).obs
        = countSettles tr (stepEvent s e).obs + liveCount tr (stepEvent s e).runningActions
    ∧ countCompletes tr (stepEvent s e).obs = countGoodSettles tr (stepEvent s e).obs := by
  cases e with
  | startTransaction t2 slug dri =>
      simp only [stepEvent, stepStart]
      split
      · exact ⟨h1, h2⟩
      split
      · exact ⟨h1, h2⟩
      split
      · exact ⟨h1, h2⟩
      split
      · exact ⟨h1, h2⟩
      constructor
      · simp only [countInvokes_append, countSettles_append, liveCount_append, h1,
          countInvokes, countSettles, liveCount]
        by_cases ht : t2 = tr <;> simp [ht] <;> omega
      · simp only [countCompletes_append, countGoodSettles_append, h2,
          countCompletes, countGoodSettles]
  | settleHandler t2 o =>
      cases hpop : popRunning s.runningActions t2 with
      | none => simpa [stepEvent, stepSettle, hpop] using ⟨h1, h2⟩
      | some q =>
          obtain ⟨dri, rest⟩ := q
          have hlive := popRunning_liveCount s.runningActions t2 dri rest hpop tr
          have hobs :
              countInvokes tr (s.obs ++ [Obs.settleAction t2 o] ++
                  (if o = HandlerOutcome.canceledUncaught then []
                   else [Obs.markComplete t2]))
                  = countInvokes tr s.obs
              ∧ countSettles tr (s.obs ++ [Obs.settleAction t2 o] ++
                  (if o = HandlerOutcome.canceledUncaught then []
                   else [Obs.markComplete t2]))
                  = countSettles tr s.obs + (if t2 = tr then 1 else 0)
              ∧ countCompletes tr (s.obs ++ [Obs.settleAction t2 o] ++
                  (if o = HandlerOutcome.canceledUncaught then []
                   else [Obs.markComplete t2]))
                  = countCompletes tr s.obs
                    + (if t2 = tr ∧ o ≠ HandlerOutcome.canceledUncaught then 1 else 0)
              ∧ countGoodSettles tr (s.obs ++ [Obs.settleAction t2 o] ++
                  (if o = HandlerOutcome.canceledUncaught then []
                   else [Obs.markComplete t2]))
                  = countGoodSettles tr s.obs
                    + (if t2 = tr ∧ o ≠ HandlerOutcome.canceledUncaught then 1 else 0) := by
            by_cases ht : t2 = tr <;> by_cases ho : o = HandlerOutcome.canceledUncaught <;>
              simp [countInvokes_append, countSettles_append, countCompletes_append,
                countGoodSettles_append, countInvokes, countSettles, countCompletes,
                countGoodSettles, ht, ho]
          obtain ⟨ho1, ho2, ho3, ho4⟩ := hobs
          cases dri with
          | true =>
              simp only [stepEvent, stepSettle, hpop, if_true]
              refine ⟨?_, ?_⟩
              · simp only [ho1, ho2, h1, hlive]
                by_cases ht : t2 = tr <;> simp [ht] <;> omega
              · simp only [ho3, ho4, h2]
          | false =>
              simp only [stepEvent, stepSettle, hpop, Bool.false_eq_true, if_false]
              rw [(closeTransactionFn_preserves _ t2).1, (closeTransactionFn_preserves _ t2).2]
              refine ⟨?_, ?_⟩
              · simp only [ho1, ho2, h1, hlive]
                by_cases ht : t2 = tr <;> simp [ht] <;> omega
              · simp only [ho3, ho4, h2]
  | closeTransaction t2 =>
      have hp := closeTransactionFn_preserves s t2
      simp only [stepEvent]
      rw [hp.1, hp.2]
      exact ⟨h1, h2⟩
  | openPage k slug =>
      simp only [stepEvent, stepOpenPage]
      split
      · exact ⟨h1, h2⟩
      split
      · exact ⟨h1, h2⟩
      split
      · exact ⟨h1, h2⟩
      constructor
      · simp only [countInvokes_append, countSettles_append, h1,
          countInvokes, countSettles]
        omega
      · simp only [countCompletes_append, countGoodSettles_append, h2,
          countCompletes, countGoodSettles]
  | closePage k =>
      have hp := closePageFn_preserves s k
      simp only [stepEvent]
      rw [hp.1, hp.2]
      exact ⟨h1, h2⟩

theorem runFrom_inv (tr : String) (es : List RpcEvent) (s : ClientState)
    (h1 : countInvokes tr s.obs = countSettles tr s.obs + liveCount tr s.runningActions)
    (h2 : countCompletes tr s.obs = countGoodSettles tr s.obs) :
    countInvokes tr (runFrom s es).obs
        = countSettles tr (runFrom s es).obs + liveCount tr (runFrom s es).runningActions
    ∧ countCompletes tr (runFrom s es).obs = countGoodSettles tr (runFrom s es).obs := by
  induction es generalizing s with
  | nil => exact ⟨h1, h2⟩
  | cons e rest ih =>
      have h := stepEvent_inv tr s e h1 h2
      simpa [runFrom, List.foldl_cons] using ih (stepEvent s e) h.1 h.2

/-- C2 is false as stated: a transaction id can be invoked again after its
first handler settled (completion removed the io-response handler), so a
sequence of inbound RPCs can produce two handler invocations and two
`MARK_TRANSACTION_COMPLETE` sends for the same transactionId. -/
theorem C2_counterexample :
    countInvokes "t1" (runEvents ["refund"] []
      [RpcEvent.startTransaction "t1" "refund" false,
       RpcEvent.settleHandler "t1" HandlerOutcome.success,
       RpcEvent.startTransaction "t1" "refund" false,
       RpcEvent.settleHandler "t1" HandlerOutcome.success]).obs = 2
  ∧ countCompletes "t1" (runEvents ["refund"] []
      [RpcEvent.startTransaction "t1" "refund" false,
       RpcEvent.settleHandler "t1" HandlerOutcome.success,
       RpcEvent.startTransaction "t1" "refund" false,
       RpcEvent.settleHandler "t1" HandlerOutcome.success]).obs = 2 := by
  exact ⟨rfl, rfl⟩

/-- C2 (amended): a START_TRANSACTION whose transactionId currently has a
registered io-response handler is ignored without invoking any handler (so a
duplicate START while the transaction is live is a no-op; a transaction can be
invoked again only after its handler registration is removed by completion or
CLOSE_TRANSACTION), and for every sequence of inbound RPCs the bookkeeping
holds: the invocations of a transactionId equal its settlements plus its still
running handlers, and its `MARK_TRANSACTION_COMPLETE` sends equal exactly its
settlements other than an uncaught CANCELED, which sends no completion. -/
theorem C2_handler_invocation_accounting (tr : String) :
    (∀ (s : ClientState) (slug : String) (dri : Bool),
        s.ioResponseHandlers.contains tr = true → stepStart s tr slug dri = s)
  ∧ (∀ (actionSlugs pageSlugs : List String) (es : List RpcEvent),
        countInvokes tr (runEvents actionSlugs pageSlugs es).obs
            = countSettles tr (runEvents actionSlugs pageSlugs es).obs
              + liveCount tr (runEvents actionSlugs pageSlugs es).runningActions
        ∧ countCompletes tr (runEvents actionSlugs pageSlugs es).obs
            = countGoodSettles tr (runEvents actionSlugs pageSlugs es).obs) := by
  constructor
  · intro s slug dri h
    cases hsd : s.shuttingDown <;> cases hho : s.hasOrganization <;>
      simp [stepStart, h, hsd, hho]
  · intro A P es
    exact runFrom_inv tr es (initialState A P) rfl rfl

/-- C2 witness: in a client where transaction `t1` is live, a duplicate
START_TRANSACTION for `t1` changes nothing. -/
theorem C2_witness : stepStart dupStartState "t1" "refund" true = dupStartState :=
  (C2_handler_invocation_accounting "t1").1 dupStartState "refund" true (by decide)

/-- C3: page send linearity and coalescing. For every event sequence of one
open page session, the zero-delay timer and an in-flight send never coexist;
the number of `SEND_PAGE` sends started never exceeds the number settled by
more than one (so no two sends are ever concurrently in flight); the stored
render instruction is always the latest update; a firing timer starts a send
whose payload is exactly the latest render instruction at that moment (and a
timer event with no timer pending starts nothing); and the concrete run in
which update A is sent, updates B and C arrive while the send of A is in
flight, and the follow-up fires, produces exactly two sends carrying A and C. -/
theorem C3_page_send_coalescing :
    (∀ es : List PageUpdateEvent,
      ((runPage es).pageSendTimeout && (runPage es).sendPagePromise) = false)
  ∧ (∀ es : List PageUpdateEvent,
      sendStartCount (runPage es).obs
        = sendDoneCount (runPage es).obs + (if (runPage es).sendPagePromise then 1 else 0))
  ∧ (∀ es : List PageUpdateEvent,
      sendStartCount (runPage es).obs ≤ sendDoneCount (runPage es).obs + 1)
  ∧ (∀ es : List PageUpdateEvent, (runPage es).renderInstruction = lastUpdate es)
  ∧ (∀ es : List PageUpdateEvent,
      (runPage (es ++ [PageUpdateEvent.timerFire])).obs
        = (runPage es).obs
          ++ (if (runPage es).pageSendTimeout then [PageObs.sendStart (lastUpdate es)]
              else []))
  ∧ ((runPage
        [PageUpdateEvent.update "A", PageUpdateEvent.timerFire,
         PageUpdateEvent.update "B", PageUpdateEvent.update "C",
         PageUpdateEvent.settle, PageUpdateEvent.timerFire,
         PageUpdateEvent.settle]).obs
      = [PageObs.sendStart (some "A"), PageObs.sendDone,
         PageObs.sendStart (some "C"), PageObs.sendDone]) := by
  have hrun : ∀ es : List PageUpdateEvent,
      ((runPage es).pageSendTimeout && (runPage es).sendPagePromise) = false
      ∧ sendStartCount (runPage es).obs
          = sendDoneCount (runPage es).obs
            + (if (runPage es).sendPagePromise then 1 else 0) := by
    intro es
    exact runFrom_page_counts es initialPageState rfl rfl
  have hrender : ∀ es : List PageUpdateEvent,
      (runPage es).renderInstruction = lastUpdate es := by
    intro es
    exact runFrom_page_render es initialPageState
  refine ⟨fun es => (hrun es).1, fun es => (hrun es).2, ?_, hrender, ?_, rfl⟩
  · intro es
    rw [(hrun es).2]
    cases (runPage es).sendPagePromise <;> simp
  · intro es
    have hfold : runPage (es ++ [PageUpdateEvent.timerFire])
        = stepPage (runPage es) PageUpdateEvent.timerFire := by
      simp [runPage, List.foldl_append]
    rw [hfold]
    cases hst : (runPage es).pageSendTimeout with
    | false => simp [stepPage, hst]
    | true => simp [stepPage, hst, hrender es]

/-- C7: once a graceful shutdown has begun (`#resolveShutdown` is set while
`safelyClose` waits for the drain), a received START_TRANSACTION leaves the
state untouched (no handler registration, no action handler invocation) and a
received OPEN_PAGE leaves the state untouched and is answered with the
shutting-down `type ERROR` response (no page handler invocation). -/
theorem C7_shutdown_refuses_new_work (s : ClientState)
    (transactionId slug pageKey pageSlug : String) (dri : Bool)
    (h : s.shuttingDown = true) :
    stepStart s transactionId slug dri = s
  ∧ stepOpenPage s pageKey pageSlug = (s, PageResponse.error "Host shutting down.") := by
  constructor
  · simp [stepStart, h]
  · simp [stepOpenPage, h]

/-- C7 witness: a concrete draining client drops a START_TRANSACTION and
refuses an OPEN_PAGE. -/
theorem C7_witness :
    stepStart shutdownExampleState "t9" "refund" false = shutdownExampleState
  ∧ stepOpenPage shutdownExampleState "p9" "dash"
      = (shutdownExampleState, PageResponse.error "Host shutting down.") :=
  C7_shutdown_refuses_new_work shutdownExampleState "t9" "refund" "p9" "dash" false rfl

/-- C8: closing an id removes exactly its own entries. After
`#closeTransaction t` the pending IO call, loading state, io-response handler,
IOClient and the inline action keys of the IOClient of `t` are absent, every
entry keyed by another id is unchanged, and the open-pages set and pending
page layouts are untouched; after CLOSE_PAGE on the same id the open-page
membership, pending layout, loading state, io-response handler, IOClient and
inline action keys are absent, other ids are unchanged, and the pending IO
calls are untouched. -/
theorem C8_close_scoped_removal (s : ClientState) (t u a : String) :
    ((closeTransactionFn s t).pendingIOCalls.get? u
        = if u = t then none else s.pendingIOCalls.get? u)
  ∧ ((closeTransactionFn s t).transactionLoadingStates.get? u
        = if u = t then none else s.transactionLoadingStates.get? u)
  ∧ ((closeTransactionFn s t).ioResponseHandlers.get? u
        = if u = t then none else s.ioResponseHandlers.get? u)
  ∧ ((closeTransactionFn s t).ioClients.get? u
        = if u = t then none else s.ioClients.get? u)
  ∧ ((closeTransactionFn s t).actionHandlers.get? a
        = if a ∈ inlineKeysOf s t then none else s.actionHandlers.get? a)
  ∧ ((closeTransactionFn s t).openPages = s.openPages)
  ∧ ((closeTransactionFn s t).pendingPageLayouts = s.pendingPageLayouts)
  ∧ ((closePageFn s t).openPages.get? u = if u = t then none else s.openPages.get? u)
  ∧ ((closePageFn s t).pendingPageLayouts.get? u
        = if u = t then none else s.pendingPageLayouts.get? u)
  ∧ ((closePageFn s t).transactionLoadingStates.get? u
        = if u = t then none else s.transactionLoadingStates.get? u)
  ∧ ((closePageFn s t).ioResponseHandlers.get? u
        = if u = t then none else s.ioResponseHandlers.get? u)
  ∧ ((closePageFn s t).ioClients.get? u = if u = t then none else s.ioClients.get? u)
  ∧ ((closePageFn s t).actionHandlers.get? a
        = if a ∈ inlineKeysOf s t then none else s.actionHandlers.get? a)
  ∧ ((closePageFn s t).pendingIOCalls = s.pendingIOCalls) := by
  cases hc : s.ioClients.get? t with
  | none =>
      refine ⟨?_, ?_, ?_, ?_, ?_, ?_, ?_, ?_, ?_, ?_, ?_, ?_, ?_, ?_⟩ <;>
        simp [closeTransactionFn, closePageFn, inlineKeysOf, hc,
          SMap.get?_delete, SMap.get?_deleteMany] <;>
        by_cases hut : u = t <;> simp [hut, hc]
  | some c =>
      refine ⟨?_, ?_, ?_, ?_, ?_, ?_, ?_, ?_, ?_, ?_, ?_, ?_, ?_, ?_⟩ <;>
        simp [closeTransactionFn, closePageFn, inlineKeysOf, hc,
          SMap.get?_delete, SMap.get?_deleteMany] <;>
        by_cases hut : u = t <;> simp [hut, hc]

theorem resolveSetting_eq (dflt : Int) (o : Option Int) (hd : 0 < dflt) :
    resolveSetting dflt o = (if 0 < o.getD 0 then o.getD 0 else dflt)
    ∧ 0 < resolveSetting dflt o := by
  cases o with
  | none => simpa [resolveSetting] using hd
  | some v =>
      by_cases hv : 0 < v
      · have hne : v ≠ 0 := by omega
        simp [resolveSetting, hv, hne]
      · have hcond : ¬ (v ≠ 0 ∧ 0 < v) := fun hh => hv hh.2
        constructor
        · simp [resolveSetting, hcond, hv]
        · simp only [resolveSetting, if_neg hcond]
          exact hd

/-- C10: every timing and retry setting that is absent, zero, or negative in
the constructor configuration is ignored in favor of the built-in default
(3000, 30000, 180000, 200, 3000 and 10 respectively), a configured positive
value is adopted, and every effective value is strictly positive after
construction. -/
theorem C10_config_defaults (c : ClientConfig) :
    ((applyConfig c).retryIntervalMs
        = if 0 < c.retryIntervalMs.getD 0 then c.retryIntervalMs.getD 0 else 3000)
  ∧ ((applyConfig c).pingIntervalMs
        = if 0 < c.pingIntervalMs.getD 0 then c.pingIntervalMs.getD 0 else 30000)
  ∧ ((applyConfig c).closeUnresponsiveConnectionTimeoutMs
        = if 0 < c.closeUnresponsiveConnectionTimeoutMs.getD 0 then
            c.closeUnresponsiveConnectionTimeoutMs.getD 0
          else 180000)
  ∧ ((applyConfig c).reinitializeBatchTimeoutMs
        = if 0 < c.reinitializeBatchTimeoutMs.getD 0 then
            c.reinitializeBatchTimeoutMs.getD 0
          else 200)
  ∧ ((applyConfig c).completeHttpRequestDelayMs
        = if 0 < c.completeHttpRequestDelayMs.getD 0 then
            c.completeHttpRequestDelayMs.getD 0
          else 3000)
  ∧ ((applyConfig c).maxResendAttempts
        = if 0 < c.maxResendAttempts.getD 0 then c.maxResendAttempts.getD 0 else 10)
  ∧ (0 < (applyConfig c).retryIntervalMs)
  ∧ (0 < (applyConfig c).pingIntervalMs)
  ∧ (0 < (applyConfig c).closeUnresponsiveConnectionTimeoutMs)
  ∧ (0 < (applyConfig c).reinitializeBatchTimeoutMs)
  ∧ (0 < (applyConfig c).completeHttpRequestDelayMs)
  ∧ (0 < (applyConfig c).maxResendAttempts) :=
  ⟨(resolveSetting_eq 3000 c.retryIntervalMs (by norm_num)).1,
   (resolveSetting_eq 30000 c.pingIntervalMs (by norm_num)).1,
   (resolveSetting_eq 180000 c.closeUnresponsiveConnectionTimeoutMs (by norm_num)).1,
   (resolveSetting_eq 200 c.reinitializeBatchTimeoutMs (by norm_num)).1,
   (resolveSetting_eq 3000 c.completeHttpRequestDelayMs (by norm_num)).1,
   (resolveSetting_eq 10 c.maxResendAttempts (by norm_num)).1,
   (resolveSetting_eq 3000 c.retryIntervalMs (by norm_num)).2,
   (resolveSetting_eq 30000 c.pingIntervalMs (by norm_num)).2,
   (resolveSetting_eq 180000 c.closeUnresponsiveConnectionTimeoutMs (by norm_num)).2,
   (resolveSetting_eq 200 c.reinitializeBatchTimeoutMs (by norm_num)).2,
   (resolveSetting_eq 3000 c.completeHttpRequestDelayMs (by norm_num)).2,
   (resolveSetting_eq 10 c.maxResendAttempts (by norm_num)).2⟩

end Chronicals
